import Mathlib

/-!
Shallow embedding of the playlstr client (src/client.py) together with the
JSON (de)serialization behaviour of Python's `json` module that the client
relies on.  Machinery first, then one theorem per specification claim.
-/

set_option maxHeartbeats 1000000

/-- Python exceptions that the client code can raise on the paths we model. -/
inductive PyError where
  | jsonDecodeError (msg : String)
  | keyError (key : String)
  | attributeError
  | valueError
deriving Repr, DecidableEq

/-- JSON values as produced by Python's `json.loads` / consumed by `json.dumps`.
Numbers are modelled as integers: no claim depends on non-integral numbers. -/
inductive Json where
  | null
  | bool (b : Bool)
  | num (n : Int)
  | str (s : String)
  | arr (elems : List Json)
  | obj (members : List (String × Json))

/-- A Python dict with string keys and JSON values (e.g. the settings dict),
modelled as an association list with unique keys in insertion order. -/
abbrev PyDict := List (String × Json)

/-- `d[k] = v` on a Python dict: replace in place if the key exists,
otherwise append (Python dicts keep insertion order). -/
def pySetItem (d : PyDict) (k : String) (v : Json) : PyDict :=
  match d with
  | [] => [(k, v)]
  | (k0, v0) :: rest => if k0 = k then (k0, v) :: rest else (k0, v0) :: pySetItem rest k v

/-- `d.get(k)` on a Python dict: the value at `k`, or `None` when absent. -/
def pyGet (d : PyDict) (k : String) : Option Json :=
  match d with
  | [] => none
  | (k0, v0) :: rest => if k0 = k then some v0 else pyGet rest k

/-- Python truthiness of `d.get(k)`: `None`, `False`, `0`, `""`, `[]`, and
an empty dict are falsy; everything else is truthy. -/
def jsonTruthy : Option Json → Bool
  | none => false
  | some Json.null => false
  | some (Json.bool b) => b
  | some (Json.num n) => n != 0
  | some (Json.str s) => s != ""
  | some (Json.arr xs) => !xs.isEmpty
  | some (Json.obj kvs) => !kvs.isEmpty

/-- Python `str()` of a JSON value, as used when a loaded value is put into a
form-encoded request field.  On the reachable paths the value is a string. -/
def pyStr : Json → String
  | Json.str s => s
  | Json.num n => toString n
  | Json.bool true => "True"
  | Json.bool false => "False"
  | Json.null => "None"
  | Json.arr _ => "<list>"
  | Json.obj _ => "<dict>"

/-- Serialize one string the way `json.dumps` does (quote and escape). -/
def dumpString (s : String) : String :=
  "\"" ++ String.join (s.data.map fun c =>
    if c = '"' then "\\\"" else if c = '\\' then "\\\\" else String.singleton c) ++ "\""

/-- CPython's default recursion limit: `json.dumps` raises `RecursionError`
on values nested beyond roughly this depth, so no dumpable value is deeper. -/
def pyRecursionLimit : Nat := 1000

/-- `json.dumps` with fuel bounding the nesting depth (default separators
`", "` and `": "`).  The fuel decreases once per nesting level; with
`pyRecursionLimit` as fuel it never runs out on any value `json.dumps`
itself accepts.  No claim involves values of any nesting depth at all. -/
def dumpJsonFuel : Nat → Json → String
  | 0, _ => ""
  | Nat.succ _, Json.null => "null"
  | Nat.succ _, Json.bool true => "true"
  | Nat.succ _, Json.bool false => "false"
  | Nat.succ _, Json.num n => toString n
  | Nat.succ _, Json.str s => dumpString s
  | Nat.succ fuel, Json.arr xs =>
    "[" ++ String.intercalate ", " (xs.map (dumpJsonFuel fuel)) ++ "]"
  | Nat.succ fuel, Json.obj kvs =>
    "\x7b" ++ String.intercalate ", "
      (kvs.map fun kv => dumpString kv.1 ++ ": " ++ dumpJsonFuel fuel kv.2) ++ "\x7d"

/-- `json.dumps` of a JSON value. -/
def dumpJson (v : Json) : String := dumpJsonFuel pyRecursionLimit v

/-- Drop leading JSON whitespace. -/
def skipWs : List Char → List Char
  | [] => []
  | c :: cs => if c = ' ' ∨ c = '\t' ∨ c = '\n' ∨ c = '\r' then skipWs cs else c :: cs

/-- One-character JSON string escapes (`\uXXXX` is not modelled; no claim
depends on it). -/
def unescapeChar (c : Char) : Option Char :=
  if c = 'n' then some '\n'
  else if c = 't' then some '\t'
  else if c = 'r' then some '\r'
  else if c = 'b' then some (Char.ofNat 8)
  else if c = 'f' then some (Char.ofNat 12)
  else if c = '"' ∨ c = '\\' ∨ c = '/' then some c
  else none

/-- Parse the body of a JSON string after the opening quote; returns the
decoded characters and the remaining input. -/
def parseStrChars : List Char → Except String (List Char × List Char)
  | [] => Except.error "Unterminated string"
  | c :: cs =>
    if c = '"' then Except.ok ([], cs)
    else if c = '\\' then
      match cs with
      | [] => Except.error "Unterminated string"
      | e :: cs2 =>
        match unescapeChar e with
        | none => Except.error "Invalid escape"
        | some ch =>
          match parseStrChars cs2 with
          | Except.ok (out, rest) => Except.ok (ch :: out, rest)
          | Except.error m => Except.error m
    else
      match parseStrChars cs with
      | Except.ok (out, rest) => Except.ok (c :: out, rest)
      | Except.error m => Except.error m

/-- Digits to a natural number. -/
def digitsToNat (ds : List Char) : Nat :=
  ds.foldl (fun acc c => acc * 10 + (c.toNat - 48)) 0

/-- Parse a JSON integer literal (fractions/exponents are not modelled; no
claim depends on numeric values). -/
def parseNum (s : List Char) : Except String (Json × List Char) :=
  match s with
  | '-' :: rest =>
    let ds := rest.takeWhile Char.isDigit
    if ds.isEmpty then Except.error "Expecting value"
    else Except.ok (Json.num (-(Int.ofNat (digitsToNat ds))), rest.drop ds.length)
  | _ =>
    let ds := s.takeWhile Char.isDigit
    if ds.isEmpty then Except.error "Expecting value"
    else Except.ok (Json.num (Int.ofNat (digitsToNat ds)), s.drop ds.length)

/-- Match a keyword tail such as `ull` after `n`. -/
def stripLit (lit : List Char) (v : Json) (s : List Char) :
    Except String (Json × List Char) :=
  if s.take lit.length = lit then Except.ok (v, s.drop lit.length)
  else Except.error "Expecting value"

mutual

/-- Recursive-descent parser for one JSON value (fuel bounds the nesting;
`jsonLoads` supplies more fuel than the input length, so it never runs out). -/
def parseVal : Nat → List Char → Except String (Json × List Char)
  | 0, _ => Except.error "Expecting value"
  | Nat.succ fuel, s =>
    match skipWs s with
    | [] => Except.error "Expecting value"
    | c :: cs =>
      if c = '\x7b' then
        match skipWs cs with
        | '\x7d' :: rest => Except.ok (Json.obj [], rest)
        | rest => parseMembers fuel rest []
      else if c = '[' then
        match skipWs cs with
        | ']' :: rest => Except.ok (Json.arr [], rest)
        | rest => parseElems fuel rest []
      else if c = '"' then
        match parseStrChars cs with
        | Except.ok (out, rest) => Except.ok (Json.str (String.mk out), rest)
        | Except.error m => Except.error m
      else if c = 'n' then stripLit ['u', 'l', 'l'] Json.null cs
      else if c = 't' then stripLit ['r', 'u', 'e'] (Json.bool true) cs
      else if c = 'f' then stripLit ['a', 'l', 's', 'e'] (Json.bool false) cs
      else if c = '-' ∨ c.isDigit then parseNum (c :: cs)
      else Except.error "Expecting value"

/-- Parse the elements of a non-empty JSON array. -/
def parseElems : Nat → List Char → List Json → Except String (Json × List Char)
  | 0, _, _ => Except.error "Expecting value"
  | Nat.succ fuel, s, acc =>
    match parseVal fuel s with
    | Except.error m => Except.error m
    | Except.ok (v, rest) =>
      match skipWs rest with
      | ',' :: rest2 => parseElems fuel rest2 (acc ++ [v])
      | ']' :: rest2 => Except.ok (Json.arr (acc ++ [v]), rest2)
      | _ => Except.error "Expecting delimiter"

/-- Parse the members of a non-empty JSON object.  Like Python, a duplicated
key keeps the last value (`pySetItem` overwrites in place). -/
def parseMembers : Nat → List Char → PyDict → Except String (Json × List Char)
  | 0, _, _ => Except.error "Expecting value"
  | Nat.succ fuel, s, acc =>
    match skipWs s with
    | '"' :: cs =>
      match parseStrChars cs with
      | Except.error m => Except.error m
      | Except.ok (kout, rest) =>
        match skipWs rest with
        | ':' :: rest2 =>
          match parseVal fuel rest2 with
          | Except.error m => Except.error m
          | Except.ok (v, rest3) =>
            match skipWs rest3 with
            | ',' :: rest4 => parseMembers fuel rest4 (pySetItem acc (String.mk kout) v)
            | '\x7d' :: rest4 => Except.ok (Json.obj (pySetItem acc (String.mk kout) v), rest4)
            | _ => Except.error "Expecting delimiter"
        | _ => Except.error "Expecting colon"
    | _ => Except.error "Expecting property name"

end

/-- Python `json.loads`: parse a complete JSON document.  On the empty string
it fails with "Expecting value" exactly like `json.loads('')`. -/
def jsonLoads (s : String) : Except String Json :=
  match parseVal (s.length + 1) s.data with
  | Except.error m => Except.error m
  | Except.ok (v, rest) =>
    if (skipWs rest).isEmpty then Except.ok v else Except.error "Extra data"

example : jsonLoads "" = Except.error "Expecting value" := rfl
example :
    jsonLoads "\x7b\"id\": \"abc\"\x7d" = Except.ok (Json.obj [("id", Json.str "abc")]) := rfl

/-!
## The client itself (src/client.py)

File and network effects are made explicit: the settings file is a
`Option String` (contents, `none` when the file does not exist), network
responses come from an oracle in `Env`, and a run produces a trace of
observable events plus an outcome.
-/

/-- Outcome of running `main`: `sys.exit(code)`, normal return, or an
uncaught Python exception aborting the run. -/
inductive Outcome where
  | exited (code : Nat)
  | finished
  | uncaught (e : PyError)
deriving Repr, DecidableEq

/-- An HTTP response as seen through the `requests` library: status code,
body text (`response.text`) and reason phrase (`response.reason`). -/
structure HttpResp where
  status : Nat
  text : String
  reason : String
deriving Repr, DecidableEq

/-- A network request issued by the client (url and form fields). -/
inductive Req where
  | linkPost (url : String) (linkCode : String) (client : String)
  | importPost (url : String) (playlist_name : String) (tracks : String) (client_id : String)
deriving Repr, DecidableEq

/-- An observable event of a run: a console print, a network request, or a
write of the settings file. -/
inductive Event where
  | print (s : String)
  | request (r : Req)
  | fileWrite (path : String) (contents : String)
deriving Repr, DecidableEq

/-- `load_settings` (src/client.py lines 23-44).  `fileContents` is the
settings file (`none`: missing, in which case the code first creates it
empty); `freshId` stands for the value `random_client_id()` would return.
Note the source reads the file handle twice: `settings_str = sfile.read()`
consumes the whole file, so the later `json.loads(sfile.read())` parses the
empty remainder of the handle. -/
def load_settings (fileContents : Option String) (freshId : String) :
    Except PyError PyDict :=
  -- if not Path(settings_file).is_file(): open(settings_file, 'w').close()
  let contents := fileContents.getD ""
  -- settings_str = sfile.read()  (reads everything, handle now at EOF)
  let settings_str := contents
  if settings_str.length > 0 then
    -- settings = json.loads(sfile.read())  (second read() returns '')
    match jsonLoads "" with
    | Except.error m => Except.error (PyError.jsonDecodeError m)
    | Except.ok v =>
      match v with
      | Json.obj settings =>
        -- try: if settings.get('id'): return settings  (get never raises KeyError)
        if jsonTruthy (pyGet settings "id") then Except.ok settings
        else Except.ok (pySetItem settings "id" (Json.str freshId))
      | _ => Except.error PyError.attributeError  -- non-dict has no .get
  else
    Except.ok [("id", Json.str freshId)]

/-- `save_settings` (src/client.py lines 47-54): the new contents of the
settings file, `json.dumps(settings)`. -/
def save_settings (settings : PyDict) : String :=
  dumpJson (Json.obj settings)

/-- `link_account` (src/client.py lines 57-68): the request it posts (to
`url + 'client-link/'`, with the url exactly as given) and either success
(status 200) or a raised `ConnectionError(response.text)`. -/
def link_account (link_code : String) (url : String) (client_id : String)
    (resp : HttpResp) : Req × Except String Unit :=
  (Req.linkPost (url ++ "client-link/") link_code client_id,
   if resp.status = 200 then Except.ok () else Except.error resp.text)

/-- The parsed command line arguments (src/client.py `parse_args`), one field
per `argparse` destination.  Note there is no `settings` field: the
destination for `--settings-file` is `settings_file`. -/
structure Args where
  playlist : List String
  add_missing : Bool
  use_hash : Bool
  url : String
  link : String
  m3u_ext : Bool
  settings_file : String

/-- The run's environment: everything outside the client's own code.
The settings file contents, the console reply to the corrupt-settings
prompt, the id `random_client_id()` would generate, the `importer` module's
registered format tags and parser outputs, and the server's responses. -/
structure Env where
  argv0 : String
  settingsContents : Option String
  userInput : String
  freshId : String
  registry : List String
  parseResult : String → String
  linkResp : HttpResp
  importResp : String → HttpResp

/-- Modelled from the spec: the `importer` module is imported by
src/client.py but is not under src/.  Per the spec's dispatch contract
("Dispatching \"mix.m3u\" selects the registered m3u parser"), it is an open
registry of format tags; this is the registry with `m3u` registered. -/
def specImporterRegistry : List String := ["m3u"]

/-- Python `'...'.split('.')` on the character list: split on every dot. -/
def splitDotAux : List Char → List (List Char)
  | [] => [[]]
  | c :: cs =>
    if c = '.' then [] :: splitDotAux cs
    else
      match splitDotAux cs with
      | [] => [[c]]
      | p :: ps => (c :: p) :: ps

/-- Python `playlist.split('.')` (src/client.py line 127). -/
def pySplitDot (s : String) : List String :=
  (splitDotAux s.data).map String.mk

/-- Python `s.rstrip('/')` : remove every trailing occurrence of the char. -/
def pyRstrip (s : String) (c : Char) : String :=
  String.mk ((s.data.reverse.dropWhile fun x => x = c).reverse)

/-- The page users are told to visit for a link code (src/client.py line 12). -/
def LINK_CODE_HELP_URL : String := "http://127.0.0.1:8000/link"

/-- `print(args)` at the start of `main`; the exact Python dict repr
formatting is abstracted, the event records that the arguments are echoed. -/
def argsEcho (a : Args) : String :=
  "args " ++ String.intercalate " " a.playlist ++ " " ++ a.url ++ " " ++ a.link
    ++ " " ++ a.settings_file

/-- Message printed when the settings file fails to decode (lines 102-103). -/
def decodePromptMsg (sf : String) : String :=
  "Error loading settings from " ++ sf ++ " (malformed file). Delete " ++ sf
    ++ " to fix this? (y/N)"

/-- Message printed when `link_account` raises (line 115). -/
def linkErrMsg (t : String) : String :=
  "Error linking account (" ++ t ++ ")."

/-- Message printed when no account is linked (line 121). -/
def noLinkMsg (argv0 : String) : String :=
  "No account linked. Get a link code from " ++ LINK_CODE_HELP_URL ++ " and run "
    ++ argv0 ++ " -l [code]"

/-- Message printed for an unregistered format tag (line 132). -/
def invalidFiletypeMsg (filetype : String) : String :=
  "Invalid filetype \"." ++ filetype ++ "\""

/-- Message printed for a non-200 import response (line 140): note it embeds
`response.reason`, not the response body. -/
def importFailMsg (playlist reason : String) : String :=
  "Error adding " ++ playlist ++ ": " ++ reason

/-- Message printed for a 200 import response (line 142): embeds the
response body as the playlist id. -/
def importedMsg (playlist url body : String) : String :=
  "Imported " ++ playlist ++ " to " ++ url ++ "/list/" ++ body ++ "/"

/-- Python `str.lower()` restricted to ASCII (enough for the `y`/`n`
console reply the code compares against). -/
def pyLowerChar (c : Char) : Char :=
  if 'A' ≤ c ∧ c ≤ 'Z' then Char.ofNat (c.toNat + 32) else c

/-- Python `input().lower()` on the console reply. -/
def pyLower (s : String) : String := String.mk (s.data.map pyLowerChar)

/-- The per-playlist loop of `main` (src/client.py lines 126-142), run with
the already-stripped `url` and `client_id = settings['id']`.  Unpacking
`name, filetype = playlist.split('.')` raises an uncaught `ValueError`
unless the split yields exactly two parts. -/
def uploadLoop (url : String) (client_id : String) (env : Env) :
    List String → List Event × Outcome
  | [] => ([], Outcome.finished)
  | playlist :: rest =>
    match pySplitDot playlist with
    | [name, filetype] =>
      if env.registry.contains filetype then
        -- parse_playlist = getattr(importer, 'import_' + filetype); tracks = parse_playlist(file, args)
        let tracks := env.parseResult playlist
        let resp := env.importResp playlist
        let msgEv :=
          if resp.status ≠ 200 then Event.print (importFailMsg playlist resp.reason)
          else Event.print (importedMsg playlist url resp.text)
        let r := uploadLoop url client_id env rest
        (Event.request (Req.importPost (url ++ "/client-import/") name tracks client_id)
          :: msgEv :: r.1, r.2)
      else
        -- except AttributeError: print invalid filetype; continue
        let r := uploadLoop url client_id env rest
        (Event.print (invalidFiletypeMsg filetype) :: r.1, r.2)
    | _ => ([], Outcome.uncaught PyError.valueError)

/-- `main` after the link-gate (src/client.py lines 120-142): refuse to
proceed without a truthy `settings['link']`, strip trailing slashes from the
url, then run the upload loop. -/
def afterGate (args : Args) (env : Env) (settings : PyDict) (acc : List Event) :
    List Event × Outcome :=
  if jsonTruthy (pyGet settings "link") then
    -- args['url'] = args['url'].rstrip('/')
    let url := pyRstrip args.url '/'
    match pyGet settings "id" with
    | none => (acc, Outcome.uncaught (PyError.keyError "id"))  -- settings['id']
    | some idv =>
      let r := uploadLoop url (pyStr idv) env args.playlist
      (acc ++ r.1, r.2)
  else
    (acc ++ [Event.print (noLinkMsg env.argv0)], Outcome.exited 0)

/-- The optional link step of `main` (src/client.py lines 111-119). -/
def linkStep (args : Args) (env : Env) (settings : PyDict) (acc : List Event) :
    List Event × Outcome :=
  if args.link = "" then afterGate args env settings acc
  else
    match pyGet settings "id" with
    | none => (acc, Outcome.uncaught (PyError.keyError "id"))  -- settings['id']
    | some idv =>
      let lr := link_account args.link args.url (pyStr idv) env.linkResp
      match lr.2 with
      | Except.error t =>
        (acc ++ [Event.request lr.1, Event.print (linkErrMsg t)], Outcome.exited 1)
      | Except.ok _ =>
        let settings1 := pySetItem settings "link" (Json.str args.link)
        afterGate args env settings1
          (acc ++ [Event.request lr.1, Event.print "Link successful",
                   Event.fileWrite args.settings_file (save_settings settings1)])

/-- `main` (src/client.py lines 89-142).  On a settings decode failure with
a `y` reply, line 105 evaluates `args['settings']`: the parsed-arguments
dict has no key `settings` (the destination is `settings_file`), so the run
dies with an uncaught `KeyError` before clearing anything. -/
def pymain (args : Args) (env : Env) : List Event × Outcome :=
  let echo := Event.print (argsEcho args)
  if args.playlist.isEmpty then
    ([echo, Event.print "Specify at least one playlist for importing"], Outcome.exited 0)
  else
    match load_settings env.settingsContents env.freshId with
    | Except.error _ =>
      let pr := Event.print (decodePromptMsg args.settings_file)
      if pyLower env.userInput = "y" then
        -- open(args['settings'], 'w').close() : KeyError('settings')
        ([echo, pr], Outcome.uncaught (PyError.keyError "settings"))
      else ([echo, pr], Outcome.exited 0)
    | Except.ok settings => linkStep args env settings [echo]

/-!
## Auxiliary notions used to state the claims
-/

/-- Number of `'.'` characters in a list of characters. -/
def dotCount : List Char → Nat
  | [] => 0
  | c :: cs => (if c = '.' then 1 else 0) + dotCount cs

/-- Does `hay` start with `needle`? -/
def startsWithL : List Char → List Char → Bool
  | [], _ => true
  | _ :: _, [] => false
  | a :: as, b :: bs => if a = b then startsWithL as bs else false

/-- Does the list contain `needle` as a contiguous run? -/
def hasInfixL (needle : List Char) : List Char → Bool
  | [] => needle.isEmpty
  | c :: cs => startsWithL needle (c :: cs) || hasInfixL needle cs

/-- Substring test: does `hay` contain `needle`? -/
def strContainsSub (hay needle : String) : Bool :=
  hasInfixL needle.data hay.data

/-- The url discipline the code actually follows: import requests go to the
slash-stripped base plus `/client-import/`, while the link request goes to
the base exactly as given plus `client-link/`. -/
def reqUrlOk (base : String) : Event → Prop
  | Event.request (Req.importPost u _ _ _) => u = pyRstrip base '/' ++ "/client-import/"
  | Event.request (Req.linkPost u _ _) => u = base ++ "client-link/"
  | _ => True

/-- C3 counterexample run: two playlist files; the first gets HTTP 200 with
body `abc123`, the second gets HTTP 500 with body `server error` and reason
phrase `Internal Server Error`. -/
def c3args : Args :=
  ⟨["one.m3u", "two.m3u"], false, false, "http://127.0.0.1:8000/", "code1", false,
   "./settings.txt"⟩

/-- Environment for the C3 counterexample run. -/
def c3env : Env :=
  ⟨"client.py", none, "", "fresh0", specImporterRegistry, (fun _ => "[]"),
   ⟨200, "linked", "OK"⟩,
   (fun p => if p = "one.m3u" then ⟨200, "abc123", "OK"⟩
             else ⟨500, "server error", "Internal Server Error"⟩)⟩

/-- C10 counterexample run: base url with a trailing slash kept visible by
doubling it, plus a link request. -/
def c10args : Args :=
  ⟨["a.m3u"], false, false, "http://127.0.0.1:8000//", "code1", false, "./settings.txt"⟩

/-- Environment for the C10 counterexample run. -/
def c10env : Env :=
  ⟨"client.py", none, "", "fresh0", specImporterRegistry, (fun _ => "[]"),
   ⟨200, "linked", "OK"⟩, (fun _ => ⟨200, "pid", "OK"⟩)⟩

/-!
## Helper lemmas
-/

lemma string_ne_empty_length_pos (s : String) (h : s ≠ "") : 0 < s.length := by
  cases s with
  | mk data =>
    cases data with
    | nil => exact absurd rfl h
    | cons c cs => simp [String.length]

lemma load_settings_nonempty (c fresh : String) (h : 0 < c.length) :
    load_settings (some c) fresh
      = Except.error (PyError.jsonDecodeError "Expecting value") := by
  have hshape : load_settings (some c) fresh =
      if c.length > 0 then Except.error (PyError.jsonDecodeError "Expecting value")
      else Except.ok [("id", Json.str fresh)] := rfl
  rw [hshape, if_pos h]

lemma jsonLoads_ok_ne_empty (c : String) (v : Json) (h : jsonLoads c = Except.ok v) :
    c ≠ "" := by
  intro he
  rw [he] at h
  exact Except.noConfusion h

lemma pyGet_pySetItem_same (d : PyDict) (k : String) (v : Json) :
    pyGet (pySetItem d k v) k = some v := by
  induction d with
  | nil => simp [pySetItem, pyGet]
  | cons kv rest ih =>
    obtain ⟨k0, v0⟩ := kv
    by_cases h : k0 = k
    · simp [pySetItem, pyGet, h]
    · simp [pySetItem, pyGet, h, ih]

/-!
## Claims C1 and C2: the settings round trip
-/

/-- C1.  The claim says: for a settings file whose contents are a non-empty
JSON object with a valid (truthy) `id`, `load_settings` returns that stored
id.  The code instead raises `json.JSONDecodeError` on every non-empty file:
it consumes the file with `settings_str = sfile.read()` and then parses
`sfile.read()` again, which is the empty remainder of the handle.  So no
load of such a file ever returns settings at all. -/
theorem c1_load_settings_valid_id_still_raises (c : String) (kvs : PyDict)
    (fresh : String)
    (h : jsonLoads c = Except.ok (Json.obj kvs))
    (_hid : jsonTruthy (pyGet kvs "id") = true) :
    load_settings (some c) fresh
      = Except.error (PyError.jsonDecodeError "Expecting value") :=
  load_settings_nonempty c fresh
    (string_ne_empty_length_pos c (jsonLoads_ok_ne_empty c (Json.obj kvs) h))

/-- Witness for C1 at the concrete file `{"id": "aaaaaaaaaaaaaaaaaaaa"}`. -/
theorem c1_load_settings_valid_id_still_raises_witness :
    jsonLoads "\x7b\"id\": \"aaaaaaaaaaaaaaaaaaaa\"\x7d"
        = Except.ok (Json.obj [("id", Json.str "aaaaaaaaaaaaaaaaaaaa")])
      ∧ jsonTruthy (pyGet [("id", Json.str "aaaaaaaaaaaaaaaaaaaa")] "id") = true
      ∧ load_settings (some "\x7b\"id\": \"aaaaaaaaaaaaaaaaaaaa\"\x7d") "freshid"
        = Except.error (PyError.jsonDecodeError "Expecting value") :=
  ⟨rfl, rfl,
   c1_load_settings_valid_id_still_raises "\x7b\"id\": \"aaaaaaaaaaaaaaaaaaaa\"\x7d"
     [("id", Json.str "aaaaaaaaaaaaaaaaaaaa")] "freshid" rfl rfl⟩

/-- C2.  The claim says `save_settings` followed by `load_settings` returns
every saved key.  In fact `json.dumps` always writes a non-empty object
literal, and `load_settings` raises `json.JSONDecodeError` on every
non-empty file (it parses the empty second `read()`), so the round trip
never returns any settings, for every settings dict. -/
theorem c2_save_then_load_always_raises (s : PyDict) (fresh : String) :
    load_settings (some (save_settings s)) fresh
      = Except.error (PyError.jsonDecodeError "Expecting value") := by
  apply load_settings_nonempty
  have hshape : save_settings s = "\x7b" ++ (String.intercalate ", "
      (s.map fun kv => dumpString kv.1 ++ ": " ++ dumpJsonFuel 999 kv.2)) ++ "\x7d" := rfl
  rw [hshape]
  simp only [String.length_append]
  have h1 : ("\x7b" : String).length = 1 := rfl
  rw [h1]
  omega

/-!
## Claim C4: corrupt-settings recovery
-/

/-- C4.  The claim says: when the settings file fails to decode and the user
answers `y`, the file that is cleared is exactly the loaded settings file,
and reloading it behaves as for an empty file.  The code instead evaluates
`open(args['settings'], 'w')`: the parsed-arguments dict only has the key
`settings_file`, so the run dies with an uncaught `KeyError('settings')`
after the prompt — nothing is cleared (no file write happens) and nothing is
reloaded. -/
theorem c4_recovery_raises_keyerror (args : Args) (env : Env) (err : PyError)
    (h0 : args.playlist ≠ [])
    (h1 : load_settings env.settingsContents env.freshId = Except.error err)
    (h2 : pyLower env.userInput = "y") :
    pymain args env =
      ([Event.print (argsEcho args), Event.print (decodePromptMsg args.settings_file)],
       Outcome.uncaught (PyError.keyError "settings")) := by
  cases hp : args.playlist with
  | nil => exact absurd hp h0
  | cons p ps => simp [pymain, hp, h1, h2]

/-- Witness for C4: file contents `x`, console reply `y`. -/
theorem c4_recovery_raises_keyerror_witness :
    load_settings (some "x") "fresh0"
        = Except.error (PyError.jsonDecodeError "Expecting value")
      ∧ pymain
          ⟨["a.m3u"], false, false, "http://127.0.0.1:8000/", "", false, "./settings.txt"⟩
          ⟨"client.py", some "x", "y", "fresh0", specImporterRegistry, (fun _ => "[]"),
           ⟨200, "ok", "OK"⟩, (fun _ => ⟨200, "pid", "OK"⟩)⟩ =
        ([Event.print (argsEcho
            ⟨["a.m3u"], false, false, "http://127.0.0.1:8000/", "", false, "./settings.txt"⟩),
          Event.print (decodePromptMsg "./settings.txt")],
         Outcome.uncaught (PyError.keyError "settings")) :=
  ⟨rfl, c4_recovery_raises_keyerror _ _ (PyError.jsonDecodeError "Expecting value")
    (by simp) rfl (by decide)⟩

/-!
## Claim C5: filename splitting
-/

lemma splitDotAux_ne_nil (s : List Char) : splitDotAux s ≠ [] := by
  induction s with
  | nil => simp [splitDotAux]
  | cons c cs ih =>
    simp only [splitDotAux]
    by_cases h : c = '.'
    · simp [h]
    · cases hh : splitDotAux cs with
      | nil => exact absurd hh ih
      | cons p ps => simp [h, hh]

lemma splitDotAux_length (s : List Char) :
    (splitDotAux s).length = dotCount s + 1 := by
  induction s with
  | nil => simp [splitDotAux, dotCount]
  | cons c cs ih =>
    simp only [splitDotAux, dotCount]
    by_cases h : c = '.'
    · simp [h, ih]
      omega
    · cases hh : splitDotAux cs with
      | nil => exact absurd hh (splitDotAux_ne_nil cs)
      | cons p ps =>
        rw [hh] at ih
        simp [h, hh]
        simp at ih
        omega

lemma pySplitDot_length (s : String) :
    (pySplitDot s).length = dotCount s.data + 1 := by
  simp [pySplitDot, splitDotAux_length]

/-- C5.  A playlist path whose name does not contain exactly one `.` makes
`name, filetype = playlist.split('.')` raise an uncaught `ValueError`
(wrong number of values to unpack), which aborts the whole loop: no request
is issued for that file nor for any later file of the batch. -/
theorem c5_bad_dot_count_aborts_run (url client_id : String) (env : Env)
    (p : String) (rest : List String)
    (h : dotCount p.data ≠ 1) :
    uploadLoop url client_id env (p :: rest)
      = ([], Outcome.uncaught PyError.valueError) := by
  have hlen : (pySplitDot p).length = dotCount p.data + 1 := pySplitDot_length p
  rcases hsp : pySplitDot p with _ | ⟨a, _ | ⟨b, _ | ⟨c, tl⟩⟩⟩
  · simp [uploadLoop, hsp]
  · simp [uploadLoop, hsp]
  · rw [hsp] at hlen
    simp at hlen
    omega
  · simp [uploadLoop, hsp]

/-- Witness for C5 at `./mix.m3u` (two dots): the whole batch dies, the
trailing `ok.m3u` is never attempted. -/
theorem c5_bad_dot_count_aborts_run_witness :
    dotCount "./mix.m3u".data ≠ 1
      ∧ uploadLoop "http://127.0.0.1:8000" "cid"
          ⟨"client.py", none, "", "fresh0", specImporterRegistry, (fun _ => "[]"),
           ⟨200, "ok", "OK"⟩, (fun _ => ⟨200, "pid", "OK"⟩)⟩
          ["./mix.m3u", "ok.m3u"]
        = ([], Outcome.uncaught PyError.valueError) :=
  ⟨by decide, c5_bad_dot_count_aborts_run _ _ _ _ _ (by decide)⟩

/-!
## Claims C6, C7, C8: the link step and the link gate
-/

/-- C6.  A link attempt answered with a non-200 status makes `link_account`
raise `ConnectionError(response.text)`; `main` prints the message built from
that body, exits with status 1, performs no settings write (link is never
set), and issues no import request: the whole trace is the argument echo,
the link request, and the error message. -/
theorem c6_link_failure_aborts (args : Args) (env : Env) (s : PyDict) (idv : Json)
    (h0 : args.playlist ≠ [])
    (h1 : load_settings env.settingsContents env.freshId = Except.ok s)
    (h2 : args.link ≠ "")
    (h3 : pyGet s "id" = some idv)
    (h4 : env.linkResp.status ≠ 200) :
    pymain args env =
        ([Event.print (argsEcho args),
          Event.request (Req.linkPost (args.url ++ "client-link/") args.link (pyStr idv)),
          Event.print (linkErrMsg env.linkResp.text)],
         Outcome.exited 1)
      ∧ (link_account args.link args.url (pyStr idv) env.linkResp).2
        = Except.error env.linkResp.text := by
  constructor
  · cases hp : args.playlist with
    | nil => exact absurd hp h0
    | cons p ps => simp [pymain, linkStep, link_account, hp, h1, h2, h3, h4]
  · simp [link_account, h4]

/-- Witness for C6: HTTP 403 with body `bad code`. -/
theorem c6_link_failure_aborts_witness :
    pymain
        ⟨["a.m3u"], false, false, "http://127.0.0.1:8000/", "code1", false, "./settings.txt"⟩
        ⟨"client.py", none, "", "fresh0", specImporterRegistry, (fun _ => "[]"),
         ⟨403, "bad code", "Forbidden"⟩, (fun _ => ⟨200, "pid", "OK"⟩)⟩ =
      ([Event.print (argsEcho
          ⟨["a.m3u"], false, false, "http://127.0.0.1:8000/", "code1", false, "./settings.txt"⟩),
        Event.request (Req.linkPost "http://127.0.0.1:8000/client-link/" "code1" "fresh0"),
        Event.print (linkErrMsg "bad code")],
       Outcome.exited 1) := by
  have h := c6_link_failure_aborts
    ⟨["a.m3u"], false, false, "http://127.0.0.1:8000/", "code1", false, "./settings.txt"⟩
    ⟨"client.py", none, "", "fresh0", specImporterRegistry, (fun _ => "[]"),
     ⟨403, "bad code", "Forbidden"⟩, (fun _ => ⟨200, "pid", "OK"⟩)⟩
    [("id", Json.str "fresh0")] (Json.str "fresh0")
    (by simp) rfl (by simp) rfl (by simp)
  simpa using h.1

lemma afterGate_events_take (args : Args) (env : Env) (s : PyDict) (acc : List Event) :
    (afterGate args env s acc).1.take acc.length = acc := by
  unfold afterGate
  split
  · cases hg : pyGet s "id" with
    | none => simp [List.take_length]
    | some idv => simp [List.take_left]
  · simp [List.take_left]

/-- C7.  A link attempt answered with status 200 sets `settings['link']` to
exactly the submitted code and writes the full updated settings object to
the settings file before any upload happens: the first four trace events
are the argument echo, the link request, the success message, and the
settings-file write; every upload event comes after them. -/
theorem c7_link_success_persists_before_uploads (args : Args) (env : Env)
    (s : PyDict) (idv : Json)
    (h0 : args.playlist ≠ [])
    (h1 : load_settings env.settingsContents env.freshId = Except.ok s)
    (h2 : args.link ≠ "")
    (h3 : pyGet s "id" = some idv)
    (h4 : env.linkResp.status = 200) :
    (pymain args env).1.take 4 =
        [Event.print (argsEcho args),
         Event.request (Req.linkPost (args.url ++ "client-link/") args.link (pyStr idv)),
         Event.print "Link successful",
         Event.fileWrite args.settings_file
           (save_settings (pySetItem s "link" (Json.str args.link)))]
      ∧ pyGet (pySetItem s "link" (Json.str args.link)) "link"
        = some (Json.str args.link) := by
  constructor
  · cases hp : args.playlist with
    | nil => exact absurd hp h0
    | cons p ps =>
      have hred : pymain args env =
          afterGate args env (pySetItem s "link" (Json.str args.link))
            [Event.print (argsEcho args),
             Event.request (Req.linkPost (args.url ++ "client-link/") args.link (pyStr idv)),
             Event.print "Link successful",
             Event.fileWrite args.settings_file
               (save_settings (pySetItem s "link" (Json.str args.link)))] := by
        simp [pymain, linkStep, link_account, hp, h1, h2, h3, h4]
      rw [hred]
      have ht := afterGate_events_take args env (pySetItem s "link" (Json.str args.link))
        [Event.print (argsEcho args),
         Event.request (Req.linkPost (args.url ++ "client-link/") args.link (pyStr idv)),
         Event.print "Link successful",
         Event.fileWrite args.settings_file
           (save_settings (pySetItem s "link" (Json.str args.link)))]
      simpa using ht
  · exact pyGet_pySetItem_same s "link" (Json.str args.link)

/-- Witness for C7 at a concrete run that proceeds to one upload. -/
theorem c7_link_success_persists_before_uploads_witness :
    (pymain
        ⟨["a.m3u"], false, false, "http://127.0.0.1:8000/", "code1", false, "./settings.txt"⟩
        ⟨"client.py", none, "", "fresh0", specImporterRegistry, (fun _ => "[]"),
         ⟨200, "linked", "OK"⟩, (fun _ => ⟨200, "pid", "OK"⟩)⟩).1.take 4 =
        [Event.print (argsEcho
           ⟨["a.m3u"], false, false, "http://127.0.0.1:8000/", "code1", false, "./settings.txt"⟩),
         Event.request (Req.linkPost "http://127.0.0.1:8000/client-link/" "code1" "fresh0"),
         Event.print "Link successful",
         Event.fileWrite "./settings.txt"
           (save_settings (pySetItem [("id", Json.str "fresh0")] "link" (Json.str "code1")))]
      ∧ pyGet (pySetItem [("id", Json.str "fresh0")] "link" (Json.str "code1")) "link"
        = some (Json.str "code1") := by
  have h := c7_link_success_persists_before_uploads
    ⟨["a.m3u"], false, false, "http://127.0.0.1:8000/", "code1", false, "./settings.txt"⟩
    ⟨"client.py", none, "", "fresh0", specImporterRegistry, (fun _ => "[]"),
     ⟨200, "linked", "OK"⟩, (fun _ => ⟨200, "pid", "OK"⟩)⟩
    [("id", Json.str "fresh0")] (Json.str "fresh0")
    (by simp) rfl (by simp) rfl rfl
  simpa using h

/-- C8.  When, after the optional link step, settings carry no truthy
`link` (here: no `--link` argument and no truthy stored link), `main` prints
the guidance message and exits with status 0; the trace contains no network
request at all, in particular no upload. -/
theorem c8_unlinked_never_uploads (args : Args) (env : Env) (s : PyDict)
    (h0 : args.playlist ≠ [])
    (h1 : load_settings env.settingsContents env.freshId = Except.ok s)
    (h2 : args.link = "")
    (h3 : jsonTruthy (pyGet s "link") = false) :
    pymain args env =
      ([Event.print (argsEcho args), Event.print (noLinkMsg env.argv0)],
       Outcome.exited 0) := by
  cases hp : args.playlist with
  | nil => exact absurd hp h0
  | cons p ps => simp [pymain, linkStep, afterGate, hp, h1, h2, h3]

/-- Witness for C8: fresh settings (missing file), no link argument. -/
theorem c8_unlinked_never_uploads_witness :
    pymain
        ⟨["a.m3u"], false, false, "http://127.0.0.1:8000/", "", false, "./settings.txt"⟩
        ⟨"client.py", none, "", "fresh0", specImporterRegistry, (fun _ => "[]"),
         ⟨200, "ok", "OK"⟩, (fun _ => ⟨200, "pid", "OK"⟩)⟩ =
      ([Event.print (argsEcho
          ⟨["a.m3u"], false, false, "http://127.0.0.1:8000/", "", false, "./settings.txt"⟩),
        Event.print (noLinkMsg "client.py")],
       Outcome.exited 0) := by
  have h := c8_unlinked_never_uploads
    ⟨["a.m3u"], false, false, "http://127.0.0.1:8000/", "", false, "./settings.txt"⟩
    ⟨"client.py", none, "", "fresh0", specImporterRegistry, (fun _ => "[]"),
     ⟨200, "ok", "OK"⟩, (fun _ => ⟨200, "pid", "OK"⟩)⟩
    [("id", Json.str "fresh0")]
    (by simp) rfl rfl rfl
  simpa using h

/-!
## Claim C9: parser dispatch and partial-failure tolerance
-/

/-- C9.  A file whose format tag has no registered parser only yields the
`Invalid filetype` report and the loop continues with the remaining files;
a file with a registered tag is dispatched to that tag's parser and its
parse result is posted.  Stated on consecutive files `p1` (unregistered
tag) and `p2` (registered tag, 200 response): the trace is the skip report,
then `p2`'s request carrying the parser output and its success message,
then whatever the remaining files produce. -/
theorem c9_unregistered_tag_skips_file_only (url client_id : String) (env : Env)
    (p1 p2 : String) (rest : List String) (n1 t1 n2 t2 b r : String)
    (h1 : pySplitDot p1 = [n1, t1])
    (h2 : env.registry.contains t1 = false)
    (h3 : pySplitDot p2 = [n2, t2])
    (h4 : env.registry.contains t2 = true)
    (h5 : env.importResp p2 = ⟨200, b, r⟩) :
    uploadLoop url client_id env (p1 :: p2 :: rest) =
      (Event.print (invalidFiletypeMsg t1)
        :: Event.request (Req.importPost (url ++ "/client-import/") n2
             (env.parseResult p2) client_id)
        :: Event.print (importedMsg p2 url b)
        :: (uploadLoop url client_id env rest).1,
       (uploadLoop url client_id env rest).2) := by
  have h2m : t1 ∉ env.registry := by simpa using h2
  have h4m : t2 ∈ env.registry := by simpa using h4
  rw [uploadLoop, h1]
  rw [uploadLoop, h3]
  simp [h2m, h4m, h5]

/-- Witness for C9: `mix.xyz` (no xyz parser) then `mix.m3u` (registered). -/
theorem c9_unregistered_tag_skips_file_only_witness :
    uploadLoop "http://127.0.0.1:8000" "cid"
        ⟨"client.py", none, "", "fresh0", specImporterRegistry, (fun _ => "[]"),
         ⟨200, "ok", "OK"⟩, (fun _ => ⟨200, "abc123", "OK"⟩)⟩
        ["mix.xyz", "mix.m3u"] =
      (Event.print (invalidFiletypeMsg "xyz")
        :: Event.request (Req.importPost "http://127.0.0.1:8000/client-import/" "mix"
             "[]" "cid")
        :: Event.print (importedMsg "mix.m3u" "http://127.0.0.1:8000" "abc123")
        :: ([] : List Event),
       Outcome.finished) := by
  have h := c9_unregistered_tag_skips_file_only "http://127.0.0.1:8000" "cid"
    ⟨"client.py", none, "", "fresh0", specImporterRegistry, (fun _ => "[]"),
     ⟨200, "ok", "OK"⟩, (fun _ => ⟨200, "abc123", "OK"⟩)⟩
    "mix.xyz" "mix.m3u" [] "mix" "xyz" "mix" "m3u" "abc123" "OK"
    (by decide) (by decide) (by decide) (by decide) rfl
  simpa [uploadLoop] using h

/-!
## Claim C3: per-file upload reporting
-/

/-- Counterexample to C3 as stated.  In this run the second upload is
answered 500 with body `server error`; a failure message for that file is
printed, but it embeds the HTTP reason phrase (`response.reason`, here
`Internal Server Error`), and no printed message of the whole run contains
the server-provided body text `server error`. -/
theorem c3_counterexample :
    (c3env.importResp "two.m3u").status = 500
      ∧ (c3env.importResp "two.m3u").text = "server error"
      ∧ Event.print (importFailMsg "two.m3u" "Internal Server Error")
          ∈ (pymain c3args c3env).1
      ∧ ((pymain c3args c3env).1.all fun e =>
          match e with
          | Event.print s => !(strContainsSub s "server error")
          | _ => true) = true := by
  refine ⟨rfl, rfl, ?_, ?_⟩
  · decide
  · decide

/-- C3 as amended.  For two consecutive well-formed files with registered
tags and arbitrary server responses, both files are attempted in order
regardless of the first file's outcome (in particular a failed first upload
does not stop the second), and the loop then continues with the remaining
files; each 200 response's body is embedded as the playlist id in the
`url/list/id/` success reference; each non-200 response is reported with
the HTTP reason phrase (`response.reason`), not with the response body. -/
theorem c3_amended_upload_reporting (url client_id : String) (env : Env)
    (p1 p2 : String) (rest : List String) (n1 t1 n2 t2 : String)
    (resp1 resp2 : HttpResp)
    (h1 : pySplitDot p1 = [n1, t1])
    (h2 : env.registry.contains t1 = true)
    (h3 : pySplitDot p2 = [n2, t2])
    (h4 : env.registry.contains t2 = true)
    (h5 : env.importResp p1 = resp1)
    (h6 : env.importResp p2 = resp2) :
    uploadLoop url client_id env (p1 :: p2 :: rest) =
      (Event.request (Req.importPost (url ++ "/client-import/") n1
          (env.parseResult p1) client_id)
        :: (if resp1.status ≠ 200 then Event.print (importFailMsg p1 resp1.reason)
            else Event.print (importedMsg p1 url resp1.text))
        :: Event.request (Req.importPost (url ++ "/client-import/") n2
            (env.parseResult p2) client_id)
        :: (if resp2.status ≠ 200 then Event.print (importFailMsg p2 resp2.reason)
            else Event.print (importedMsg p2 url resp2.text))
        :: (uploadLoop url client_id env rest).1,
       (uploadLoop url client_id env rest).2) := by
  have h2m : t1 ∈ env.registry := by simpa using h2
  have h4m : t2 ∈ env.registry := by simpa using h4
  rw [uploadLoop, h1]
  rw [uploadLoop, h3]
  simp [h2m, h4m, h5, h6]

/-- Witness for the amended C3 with the failing upload first: the 500 file
is reported with the reason phrase and the 200 file is still attempted
afterwards, its body embedded in the success reference. -/
theorem c3_amended_upload_reporting_witness :
    uploadLoop "http://127.0.0.1:8000" "fresh0" c3env ["two.m3u", "one.m3u"] =
      ([Event.request (Req.importPost "http://127.0.0.1:8000/client-import/" "two"
          "[]" "fresh0"),
        Event.print (importFailMsg "two.m3u" "Internal Server Error"),
        Event.request (Req.importPost "http://127.0.0.1:8000/client-import/" "one"
          "[]" "fresh0"),
        Event.print (importedMsg "one.m3u" "http://127.0.0.1:8000" "abc123")],
       Outcome.finished) := by
  have h := c3_amended_upload_reporting "http://127.0.0.1:8000" "fresh0" c3env
    "two.m3u" "one.m3u" [] "two" "m3u" "one" "m3u"
    ⟨500, "server error", "Internal Server Error"⟩ ⟨200, "abc123", "OK"⟩
    (by decide) (by decide) (by decide) (by decide) (by decide) (by decide)
  simpa [uploadLoop] using h

/-!
## Claim C10: trailing-slash handling
-/

/-- Counterexample to C10 as stated.  The account-linking request goes out
on the base url exactly as given, trailing slashes and all
(`...8000//client-link/`), which differs from what any stripped-base url
would be; only the later import request uses the stripped base. -/
theorem c10_counterexample :
    Event.request (Req.linkPost "http://127.0.0.1:8000//client-link/" "code1" "fresh0")
        ∈ (pymain c10args c10env).1
      ∧ pyRstrip "http://127.0.0.1:8000//" '/' = "http://127.0.0.1:8000"
      ∧ "http://127.0.0.1:8000//client-link/"
        ≠ pyRstrip "http://127.0.0.1:8000//" '/' ++ "/client-link/"
      ∧ Event.request (Req.importPost "http://127.0.0.1:8000/client-import/" "a" "[]"
          "fresh0") ∈ (pymain c10args c10env).1 := by
  refine ⟨?_, ?_, ?_, ?_⟩ <;> decide

lemma uploadLoop_mem_shape (url client_id : String) (env : Env) :
    ∀ (ps : List String) (e : Event), e ∈ (uploadLoop url client_id env ps).1 →
      (∃ m, e = Event.print m) ∨
      (∃ n t c, e = Event.request (Req.importPost (url ++ "/client-import/") n t c)) := by
  intro ps
  induction ps with
  | nil => intro e he; simp [uploadLoop] at he
  | cons p rest ih =>
    intro e he
    rcases hsp : pySplitDot p with _ | ⟨a, _ | ⟨b, _ | ⟨c, tl⟩⟩⟩ <;>
      rw [uploadLoop, hsp] at he
    · simp at he
    · simp at he
    · replace he : e ∈
          (if env.registry.contains b = true then
            (Event.request (Req.importPost (url ++ "/client-import/") a
                (env.parseResult p) client_id)
              :: (if (env.importResp p).status ≠ 200 then
                    Event.print (importFailMsg p (env.importResp p).reason)
                  else Event.print (importedMsg p url (env.importResp p).text))
              :: (uploadLoop url client_id env rest).1,
             (uploadLoop url client_id env rest).2)
          else
            (Event.print (invalidFiletypeMsg b) :: (uploadLoop url client_id env rest).1,
             (uploadLoop url client_id env rest).2)).1 := he
      by_cases hr : env.registry.contains b = true
      · rw [if_pos hr] at he
        rcases List.mem_cons.mp he with rfl | he2
        · exact Or.inr ⟨a, _, client_id, rfl⟩
        · rcases List.mem_cons.mp he2 with rfl | he3
          · by_cases hs : (env.importResp p).status ≠ 200
            · rw [if_pos hs]
              exact Or.inl ⟨_, rfl⟩
            · rw [if_neg hs]
              exact Or.inl ⟨_, rfl⟩
          · exact ih e he3
      · rw [if_neg hr] at he
        rcases List.mem_cons.mp he with rfl | he2
        · exact Or.inl ⟨_, rfl⟩
        · exact ih e he2
    · simp at he

lemma afterGate_mem_shape (args : Args) (env : Env) (s : PyDict) (acc : List Event)
    (e : Event) (he : e ∈ (afterGate args env s acc).1) :
    e ∈ acc ∨ (∃ m, e = Event.print m) ∨
      (∃ n t c, e = Event.request
        (Req.importPost (pyRstrip args.url '/' ++ "/client-import/") n t c)) := by
  simp only [afterGate] at he
  split at he
  · split at he
    · exact Or.inl he
    · rcases List.mem_append.mp he with h | h
      · exact Or.inl h
      · rcases uploadLoop_mem_shape _ _ env args.playlist e h with h1 | h1
        · exact Or.inr (Or.inl h1)
        · exact Or.inr (Or.inr h1)
  · rcases List.mem_append.mp he with h | h
    · exact Or.inl h
    · simp at h
      exact Or.inr (Or.inl ⟨_, h⟩)

lemma linkStep_mem_shape (args : Args) (env : Env) (s : PyDict) (acc : List Event)
    (e : Event) (he : e ∈ (linkStep args env s acc).1) :
    e ∈ acc ∨ (∃ m, e = Event.print m) ∨ (∃ p c, e = Event.fileWrite p c) ∨
      (∃ l c, e = Event.request (Req.linkPost (args.url ++ "client-link/") l c)) ∨
      (∃ n t c, e = Event.request
        (Req.importPost (pyRstrip args.url '/' ++ "/client-import/") n t c)) := by
  simp only [linkStep, link_account] at he
  split at he
  · rcases afterGate_mem_shape args env s acc e he with h | h | h
    · exact Or.inl h
    · exact Or.inr (Or.inl h)
    · exact Or.inr (Or.inr (Or.inr (Or.inr h)))
  · split at he
    · exact Or.inl he
    · split at he
      · rcases List.mem_append.mp he with h | h
        · exact Or.inl h
        · simp at h
          rcases h with rfl | rfl
          · exact Or.inr (Or.inr (Or.inr (Or.inl ⟨_, _, rfl⟩)))
          · exact Or.inr (Or.inl ⟨_, rfl⟩)
      · rcases afterGate_mem_shape args env _ _ e he with h | h | h
        · rcases List.mem_append.mp h with h1 | h1
          · exact Or.inl h1
          · simp at h1
            rcases h1 with rfl | rfl | rfl
            · exact Or.inr (Or.inr (Or.inr (Or.inl ⟨_, _, rfl⟩)))
            · exact Or.inr (Or.inl ⟨_, rfl⟩)
            · exact Or.inr (Or.inr (Or.inl ⟨_, _, rfl⟩))
        · exact Or.inr (Or.inl h)
        · exact Or.inr (Or.inr (Or.inr (Or.inr h)))

/-- C10 as amended.  The trailing slash is stripped only after the optional
link step: every import request of every run posts to
`rstrip(url, '/') + "/client-import/"`, while the account-linking request,
when one happens, posts to the base url exactly as given concatenated with
`client-link/` (no stripping). -/
theorem c10_amended_url_discipline (args : Args) (env : Env) (e : Event)
    (he : e ∈ (pymain args env).1) : reqUrlOk args.url e := by
  simp only [pymain] at he
  split at he
  · simp at he
    rcases he with rfl | rfl <;> exact trivial
  · split at he
    · split at he <;> simp at he <;> rcases he with rfl | rfl <;> exact trivial
    · rcases linkStep_mem_shape args env _ _ e he with h | h | h | h | h
      · simp at h
        subst h; exact trivial
      · rcases h with ⟨m, rfl⟩; exact trivial
      · rcases h with ⟨p, c, rfl⟩; exact trivial
      · rcases h with ⟨l, c, rfl⟩; exact rfl
      · rcases h with ⟨n, t, c, rfl⟩; exact rfl

/-- Witness for the amended C10 at the counterexample's link event. -/
theorem c10_amended_url_discipline_witness :
    Event.request (Req.linkPost "http://127.0.0.1:8000//client-link/" "code1" "fresh0")
        ∈ (pymain c10args c10env).1
      ∧ reqUrlOk c10args.url
        (Event.request (Req.linkPost "http://127.0.0.1:8000//client-link/" "code1"
          "fresh0")) :=
  ⟨by decide, c10_amended_url_discipline c10args c10env _ (by decide)⟩
